import Mathlib

/-!
# Slot-availability engine of the MyMech Autocare backend — verification

Shallow embedding of the appointment slot-availability subsystem:

* `AppointmentController.getAvailableTimeSlots` — the HTTP handler
  `GET /appointments/available-slots` (appointment controller).
* `ChatbotService.getAvailableTimeSlots` — the current chat-service slot
  computation.
* `ChatbotServiceLegacy.getAvailableTimeSlots` — the second (legacy)
  chat-service slot computation present in the repository.
* `ChatbotService.extractDateAndIntent` / `ChatbotService.processChatRoute` —
  the oracle-output handling and dispatch of `processChatMessage`.
* `ChatbotController.handleChatMessage` — the `POST /chatbot/message` handler.

Modelling conventions:
* A calendar date is represented by the result of the JavaScript expression
  `new Date(dateString).getDay()`: `some d` with `d` in `0..6` for a date that
  parses (0 = Sunday .. 6 = Saturday), `none` for an unparseable date string
  (JavaScript yields `NaN`, which compares unequal to every number).
* The Prisma query in each function filters the day's appointments by a
  status predicate server-side; we model the fetch as delivering the day's
  raw bookings (an `Except` capturing a possible storage failure, which the
  JavaScript `catch` blocks translate) and apply the status predicate where
  the query's `where` clause does.
* A booking is reduced to the fields the engine reads: the hour and minute of
  `scheduledDate` on the queried day, and its `status`.
-/

/-- Appointment `status` column values (Prisma enum used by the engine). -/
inductive BookingStatus where
  | scheduled
  | confirmed
  | inProgress
  | completed
  | cancelled
  deriving DecidableEq, Repr

/-- A booking on the queried date, reduced to the fields the slot engine
reads: hour and minute of `scheduledDate`, and the status. -/
structure Booking where
  hour : Nat
  minute : Nat
  status : BookingStatus
  deriving DecidableEq, Repr

/-- The Prisma status filter `status: { in: ['scheduled', 'confirmed',
'in_progress'] }` shared by the appointment handler and the current chat
service: these statuses occupy a slot. -/
def occupiesSlot : BookingStatus → Bool
  | .scheduled => true
  | .confirmed => true
  | .inProgress => true
  | .completed => false
  | .cancelled => false

/-- JavaScript `hour.toString().padStart(2, '0')`. -/
def pad2 (n : Nat) : String :=
  if n < 10 then "0" ++ toString n else toString n

/-- `formatHourDisplay` — defined identically in the appointment controller
and in the chat service: 12-hour clock label of an hour. -/
def formatHourDisplay (hour : Nat) : String :=
  let period := if hour ≥ 12 then "PM" else "AM"
  let displayHour := if hour > 12 then hour - 12 else if hour = 0 then 12 else hour
  toString displayHour ++ ":00 " ++ period

/-- One generated time slot `{ hour, time, display }`. -/
structure Slot where
  hour : Nat
  time : String
  display : String
  deriving DecidableEq, Repr

/-- The slot-generation loop `for (let hour = startHour; hour < endHour;
hour++) allSlots.push({hour, time, display})`, identical in the appointment
controller and the current chat service. -/
def makeSlots (startHour endHour : Nat) : List Slot :=
  (List.range' startHour (endHour - startHour)).map fun h =>
    { hour := h, time := pad2 h ++ ":00", display := formatHourDisplay h }

/-- The business-hours assignment `if (dayOfWeek === 6) startHour = 8 else
startHour = 9`, identical in the appointment controller and the current chat
service.  The Sunday case never reaches this assignment. -/
def businessStart (day : Option Nat) : Nat :=
  if day = some 6 then 8 else 9

/-- The business-hours assignment `if (dayOfWeek === 6) endHour = 19 else
endHour = 18`, identical in the appointment controller and the current chat
service. -/
def businessEnd (day : Option Nat) : Nat :=
  if day = some 6 then 19 else 18

/-- The booked-hours derivation shared by the appointment controller and the
current chat service: the server-side status filter followed by
`existingAppointments.map(apt => new Date(apt.scheduledDate).getHours())`. -/
def bookedHoursOf (bs : List Booking) : List Nat :=
  (bs.filter fun b => occupiesSlot b.status).map Booking.hour

namespace AppointmentController

/-- JSON body shapes the handler can produce: the 400/500 error object, the
Sunday closed object, and the ordinary data object. -/
inductive Body where
  | err (error : String)
  | closed (availableSlots : List Slot) (message : String)
  | ok (date : String) (dayOfWeek : String) (businessHours : String)
      (availableSlots : List Slot) (totalSlots : Nat) (bookedSlots : Nat)
  deriving DecidableEq, Repr

/-- HTTP status code plus JSON body. -/
structure Response where
  status : Nat
  body : Body
  deriving DecidableEq, Repr

/-- `getDayName(dayOfWeek)`: index into the English weekday array.  A `NaN`
day-of-week (unparseable date) indexes to JavaScript `undefined`, rendered
here as the string "undefined". -/
def getDayName : Option Nat → String
  | some d => (["Sunday", "Monday", "Tuesday", "Wednesday", "Thursday",
      "Friday", "Saturday"].getD d "undefined")
  | none => "undefined"

/-- The HTTP handler `getAvailableTimeSlots(req, res)` of the appointment
controller.  `date` is the raw `req.query.date` (`none` when the query
parameter is absent); `day` is `new Date(date).getDay()` as described in the
module docstring; `fetch` is the outcome of the Prisma lookup for the day's
bookings (the status predicate of its `where` clause is applied below). -/
def getAvailableTimeSlots (date : Option String) (day : Option Nat)
    (fetch : Except Unit (List Booking)) : Response :=
  match date with
  | none => { status := 400, body := .err "Date is required" }
  | some dateStr =>
    if dateStr = "" then { status := 400, body := .err "Date is required" }
    else if day = some 0 then
      { status := 200,
        body := .closed [] "Service station is closed on Sundays" }
    else
      let startHour := businessStart day
      let endHour := businessEnd day
      let allSlots := makeSlots startHour endHour
      match fetch with
      | .error _ =>
        { status := 500, body := .err "Failed to fetch available time slots" }
      | .ok appts =>
        let bookedHours := bookedHoursOf appts
        let availableSlots :=
          allSlots.filter fun slot => !(bookedHours.contains slot.hour)
        { status := 200,
          body := .ok dateStr (getDayName day)
            (formatHourDisplay startHour ++ " - " ++ formatHourDisplay endHour)
            availableSlots allSlots.length bookedHours.length }

/-- The `availableSlots` list carried by a response (empty for error
bodies). -/
def slotsOf : Response → List Slot
  | { body := .closed s _, .. } => s
  | { body := .ok _ _ _ s _ _, .. } => s
  | _ => []

/-- The `bookedSlots` count carried by a response (zero for bodies without
one). -/
def bookedCountOf : Response → Nat
  | { body := .ok _ _ _ _ _ b, .. } => b
  | _ => 0

end AppointmentController

namespace ChatbotService

/-- The current chat-service `getAvailableTimeSlots(date)`: same day-of-week
dispatch, business hours, slot generation and booked-hour derivation as the
appointment handler, but it returns the list of `display` strings, and a
storage failure is re-thrown to the caller (modelled by propagating the
`Except` error). `day` is `new Date(date).getDay()`. -/
def getAvailableTimeSlots (day : Option Nat)
    (fetch : Except Unit (List Booking)) : Except Unit (List String) :=
  if day = some 0 then .ok []
  else
    let startHour := businessStart day
    let endHour := businessEnd day
    let allSlots := makeSlots startHour endHour
    match fetch with
    | .error e => .error e
    | .ok appts =>
      let bookedHours := bookedHoursOf appts
      .ok (((allSlots.filter fun slot => !(bookedHours.contains slot.hour)).map
        fun slot => slot.display))

/-- The oracle's parsed JSON payload `{intent, date, userFriendlyDate}`.
A JSON `null` (or absent) field is `none`. -/
structure ParsedIntent where
  intent : String
  date : Option String
  userFriendlyDate : Option String
  deriving DecidableEq, Repr

/-- The fallback value `{ intent: "other", date: null, userFriendlyDate:
null }` returned when the oracle's text cannot be interpreted. -/
def fallbackIntent : ParsedIntent :=
  { intent := "other", date := none, userFriendlyDate := none }

/-- Outcome of the two external text operations applied to the oracle's raw
reply in `extractDateAndIntent`: the regex `/\x7b[\s\S]*\x7d/` finds no JSON
envelope; an envelope is found but `JSON.parse` throws; or `JSON.parse`
succeeds with a payload. -/
inductive OracleText where
  | noEnvelope
  | badJson
  | okJson (payload : ParsedIntent)
  deriving DecidableEq, Repr

/-- `extractDateAndIntent` — the result-handling tail of the function: a
successfully parsed payload is returned as-is (no validation of any field);
a missing envelope or a `JSON.parse` exception produces the fallback. -/
def extractDateAndIntent : OracleText → ParsedIntent
  | .noEnvelope => fallbackIntent
  | .badJson => fallbackIntent
  | .okJson payload => payload

/-- JavaScript truthiness of the extracted `date` field (`null`/absent and
the empty string are falsy). -/
def dateTruthy : Option String → Bool
  | none => false
  | some s => !(s == "")

/-- The branch `processChatMessage` takes after extraction. -/
inductive Route where
  | slotQuery (date : String)
  | general (intent : String)
  deriving DecidableEq, Repr

/-- The dispatch of `processChatMessage`: `if (intent === 'appointment_query'
&& date)` the slot engine is invoked with the extracted date (whatever string
it is); otherwise a generic reply is generated for the intent. -/
def processChatRoute (p : ParsedIntent) : Route :=
  if p.intent == "appointment_query" && dateTruthy p.date then
    .slotQuery (p.date.getD "")
  else
    .general p.intent

end ChatbotService

namespace ChatbotServiceLegacy

/-- The legacy chat-service slot table: `businessHours`, a fixed list of
"HH:00" strings used for every day of the week. -/
def businessHours : List String :=
  ["09:00", "10:00", "11:00", "12:00", "13:00", "14:00", "15:00", "16:00",
   "17:00"]

/-- The legacy chat-service booked-slot derivation: Prisma filter
`status: { not: "cancelled" }` followed by formatting each booking's time as
`"HH:MM"` (`getHours` and `getMinutes`, both zero-padded). -/
def bookedSlotsOf (bs : List Booking) : List String :=
  (bs.filter fun b => !(b.status == .cancelled)).map fun b =>
    pad2 b.hour ++ ":" ++ pad2 b.minute

/-- The legacy chat-service `getAvailableTimeSlots(date)`: no day-of-week
dispatch at all (the date only bounds the Prisma query, here subsumed by
`fetch`); the fixed `businessHours` strings minus the booked `"HH:MM"`
strings.  A storage failure is re-thrown. -/
def getAvailableTimeSlots (fetch : Except Unit (List Booking)) :
    Except Unit (List String) :=
  match fetch with
  | .error e => .error e
  | .ok appts =>
    let bookedSlots := bookedSlotsOf appts
    .ok (businessHours.filter fun slot => !(bookedSlots.contains slot))

/-- The slot list of a successful legacy result (empty on error). -/
def slotsOk : Except Unit (List String) → List String
  | .ok l => l
  | .error _ => []

end ChatbotServiceLegacy

namespace ChatbotController

/-- The value `processChatMessage` resolves with. -/
structure ChatResult where
  reply : String
  intent : String
  availableSlots : Option (List String)
  date : Option String
  deriving DecidableEq, Repr

/-- JSON body shapes of the chatbot endpoint. -/
inductive Body where
  | err (error : String)
  | ok (data : ChatResult)
  deriving DecidableEq, Repr

/-- HTTP status code plus JSON body. -/
structure Response where
  status : Nat
  body : Body
  deriving DecidableEq, Repr

/-- Model of JavaScript `String.prototype.trim`: strip leading and trailing
whitespace. -/
def jsTrim (s : String) : String :=
  ⟨((s.data.dropWhile Char.isWhitespace).reverse.dropWhile
      Char.isWhitespace).reverse⟩

/-- Model of JavaScript `errMessage.includes(needle)` via `splitOn`: the
needle occurs iff splitting on it yields more than one piece. -/
def includesSubstr (s needle : String) : Bool :=
  (s.splitOn needle).length > 1

/-- The catch-block classification of a thrown error's message into a
user-facing 500 message. -/
def classifyChatError (msg : String) : String :=
  if includesSubstr msg "API key expired" then
    "The AI service API key has expired. Please contact the administrator."
  else if includesSubstr msg "quota" then
    "The AI service quota has been exceeded. Please try again later."
  else if includesSubstr msg "overloaded" then
    "The AI service is currently overloaded. Please try again in a moment."
  else
    "Failed to process message. Please try again."

/-- The HTTP handler `handleChatMessage(req, res)`: reject a missing, empty
or whitespace-only `message` with 400 before anything else; otherwise the
response reflects the outcome of `processChatMessage` (`outcome`, whose
error carries the thrown message). -/
def handleChatMessage (message : Option String)
    (outcome : Except String ChatResult) : Response :=
  match message with
  | none => { status := 400, body := .err "Message is required" }
  | some s =>
    if s = "" ∨ jsTrim s = "" then
      { status := 400, body := .err "Message is required" }
    else
      match outcome with
      | .error m => { status := 500, body := .err (classifyChatError m) }
      | .ok r => { status := 200, body := .ok r }

end ChatbotController

/-- Follows the spec's words (§4.1 step 6): `bookedSlotCount` is the number
of DISTINCT occupied hours that fall within `[startHour, endHour)`; duplicate
bookings at one hour count once and hours outside business hours are
excluded.  Spec-side definition, for comparison with the handler's
`bookedSlots` field. -/
def specBookedSlotCount (startHour endHour : Nat) (bs : List Booking) : Nat :=
  ((bookedHoursOf bs).dedup.filter
    fun h => decide (startHour ≤ h ∧ h < endHour)).length

/-! ## Helper lemmas -/

lemma contains_eq_decide_mem {α : Type} [BEq α] [LawfulBEq α]
    (l : List α) (a : α) : l.contains a = decide (a ∈ l) :=
  List.elem_eq_mem a l

lemma mem_bookedHoursOf {bs : List Booking} {h : Nat} :
    h ∈ bookedHoursOf bs ↔ ∃ b ∈ bs, occupiesSlot b.status = true ∧ b.hour = h := by
  simp only [bookedHoursOf, List.mem_map, List.mem_filter]
  constructor
  · rintro ⟨b, ⟨hb, hocc⟩, hh⟩
    exact ⟨b, hb, hocc, hh⟩
  · rintro ⟨b, hb, hocc, hh⟩
    exact ⟨b, ⟨hb, hocc⟩, hh⟩

lemma mem_filtered_slot_hours (sh eh : Nat) (bh : List Nat) (h : Nat) :
    (h ∈ ((makeSlots sh eh).filter fun slot => !(bh.contains slot.hour)).map
        Slot.hour) ↔ (sh ≤ h ∧ h < sh + (eh - sh) ∧ h ∉ bh) := by
  constructor
  · intro hmem
    rw [List.mem_map] at hmem
    obtain ⟨s, hs, rfl⟩ := hmem
    rw [List.mem_filter] at hs
    obtain ⟨hsmem, hp⟩ := hs
    rw [makeSlots, List.mem_map] at hsmem
    obtain ⟨k, hk, rfl⟩ := hsmem
    rw [List.mem_range'_1] at hk
    refine ⟨hk.1, hk.2, ?_⟩
    intro hmem2
    rw [contains_eq_decide_mem] at hp
    simp only [Bool.not_eq_true', decide_eq_false_iff_not] at hp
    exact hp hmem2
  · rintro ⟨h1, h2, h3⟩
    rw [List.mem_map]
    refine ⟨⟨h, pad2 h ++ ":00", formatHourDisplay h⟩, ?_, rfl⟩
    rw [List.mem_filter]
    refine ⟨?_, ?_⟩
    · rw [makeSlots, List.mem_map]
      exact ⟨h, List.mem_range'_1.mpr ⟨h1, h2⟩, rfl⟩
    · rw [contains_eq_decide_mem]
      simp [h3]

/-- Modelling device for the minutes-irrelevance property: the same booking
with its minutes component cleared. -/
def zeroMinutes (b : Booking) : Booking :=
  { b with minute := 0 }

lemma bookedHoursOf_zeroMinutes (bs : List Booking) :
    bookedHoursOf (bs.map zeroMinutes) = bookedHoursOf bs := by
  induction bs with
  | nil => rfl
  | cons b t ih =>
    simp only [List.map_cons, bookedHoursOf, List.filter_cons] at *
    cases hb : occupiesSlot b.status <;>
      simp only [zeroMinutes, hb, List.map_cons, ih, if_true, if_false,
        Bool.false_eq_true, Bool.true_eq_false, ite_true, ite_false]

lemma contains_cons_of_mem {a : Nat} {l : List Nat} (hmem : a ∈ l) (x : Nat) :
    (a :: l).contains x = l.contains x := by
  rw [contains_eq_decide_mem, contains_eq_decide_mem]
  by_cases hx : x ∈ l
  · simp [hx, List.mem_cons]
  · have : ¬x ∈ a :: l := by
      rw [List.mem_cons]
      rintro (rfl | hc)
      · exact hx hmem
      · exact hx hc
    simp [hx, this]

lemma mem_legacy_bookedSlotsOf {bs : List Booking} {b : Booking}
    (hb : b ∈ bs) (hc : b.status ≠ .cancelled) :
    (pad2 b.hour ++ ":" ++ pad2 b.minute) ∈ ChatbotServiceLegacy.bookedSlotsOf bs := by
  rw [ChatbotServiceLegacy.bookedSlotsOf, List.mem_map]
  refine ⟨b, ?_, rfl⟩
  rw [List.mem_filter]
  refine ⟨hb, ?_⟩
  simp only [Bool.not_eq_true', beq_eq_false_iff_ne, ne_eq]
  exact hc

/-! ## Claim theorems -/

/-- C7: for every Monday-through-Friday day-of-week with no bookings the
handler returns exactly the nine slots for hours 9..17 in ascending order
with 12-hour labels "9:00 AM" through "5:00 PM" (hour 12 rendered
"12:00 PM"), and for Saturday with no bookings exactly the eleven slots for
hours 8..18 labelled "8:00 AM" through "6:00 PM". -/
theorem weekday_and_saturday_full_slot_lists (d : Nat) (h1 : 1 ≤ d)
    (h5 : d ≤ 5) :
    AppointmentController.slotsOf
        (AppointmentController.getAvailableTimeSlots (some "2025-11-12")
          (some d) (.ok [])) =
      [⟨9, "09:00", "9:00 AM"⟩, ⟨10, "10:00", "10:00 AM"⟩,
       ⟨11, "11:00", "11:00 AM"⟩, ⟨12, "12:00", "12:00 PM"⟩,
       ⟨13, "13:00", "1:00 PM"⟩, ⟨14, "14:00", "2:00 PM"⟩,
       ⟨15, "15:00", "3:00 PM"⟩, ⟨16, "16:00", "4:00 PM"⟩,
       ⟨17, "17:00", "5:00 PM"⟩]
    ∧ AppointmentController.slotsOf
        (AppointmentController.getAvailableTimeSlots (some "2025-11-15")
          (some 6) (.ok [])) =
      [⟨8, "08:00", "8:00 AM"⟩, ⟨9, "09:00", "9:00 AM"⟩,
       ⟨10, "10:00", "10:00 AM"⟩, ⟨11, "11:00", "11:00 AM"⟩,
       ⟨12, "12:00", "12:00 PM"⟩, ⟨13, "13:00", "1:00 PM"⟩,
       ⟨14, "14:00", "2:00 PM"⟩, ⟨15, "15:00", "3:00 PM"⟩,
       ⟨16, "16:00", "4:00 PM"⟩, ⟨17, "17:00", "5:00 PM"⟩,
       ⟨18, "18:00", "6:00 PM"⟩] := by
  constructor
  · interval_cases d <;> rfl
  · rfl

/-- Witness for C7 at the Wednesday day-of-week (2025-11-12). -/
theorem weekday_and_saturday_full_slot_lists_witness :
    AppointmentController.slotsOf
        (AppointmentController.getAvailableTimeSlots (some "2025-11-12")
          (some 3) (.ok [])) =
      [⟨9, "09:00", "9:00 AM"⟩, ⟨10, "10:00", "10:00 AM"⟩,
       ⟨11, "11:00", "11:00 AM"⟩, ⟨12, "12:00", "12:00 PM"⟩,
       ⟨13, "13:00", "1:00 PM"⟩, ⟨14, "14:00", "2:00 PM"⟩,
       ⟨15, "15:00", "3:00 PM"⟩, ⟨16, "16:00", "4:00 PM"⟩,
       ⟨17, "17:00", "5:00 PM"⟩]
    ∧ AppointmentController.slotsOf
        (AppointmentController.getAvailableTimeSlots (some "2025-11-15")
          (some 6) (.ok [])) =
      [⟨8, "08:00", "8:00 AM"⟩, ⟨9, "09:00", "9:00 AM"⟩,
       ⟨10, "10:00", "10:00 AM"⟩, ⟨11, "11:00", "11:00 AM"⟩,
       ⟨12, "12:00", "12:00 PM"⟩, ⟨13, "13:00", "1:00 PM"⟩,
       ⟨14, "14:00", "2:00 PM"⟩, ⟨15, "15:00", "3:00 PM"⟩,
       ⟨16, "16:00", "4:00 PM"⟩, ⟨17, "17:00", "5:00 PM"⟩,
       ⟨18, "18:00", "6:00 PM"⟩] :=
  weekday_and_saturday_full_slot_lists 3 (by decide) (by decide)

/-- C9: a missing `date` query parameter makes the availability endpoint
answer 400 `{success:false, error:"Date is required"}` no matter what the
booking fetch would do, and a missing or empty `message` makes the chatbot
endpoint answer 400 `{success:false, error:"Message is required"}` no matter
what the oracle pipeline would do (both responses are constant in the
respective collaborator outcome, so no computation, fetch or oracle call can
influence them). -/
theorem missing_inputs_rejected_without_work (day : Option Nat)
    (fetch : Except Unit (List Booking))
    (outcome : Except String ChatbotController.ChatResult) :
    AppointmentController.getAvailableTimeSlots none day fetch =
      { status := 400, body := .err "Date is required" }
    ∧ ChatbotController.handleChatMessage none outcome =
      { status := 400, body := .err "Message is required" }
    ∧ ChatbotController.handleChatMessage (some "") outcome =
      { status := 400, body := .err "Message is required" } :=
  ⟨rfl, rfl, rfl⟩

/-- C10: a non-empty message consisting only of whitespace is rejected by
the chatbot endpoint with the same 400 `{success:false, error:"Message is
required"}` as an empty message, for every oracle-pipeline outcome (so the
oracle and the slot engine are never invoked). -/
theorem whitespace_message_rejected (s : String)
    (outcome : Except String ChatbotController.ChatResult) (_hne : s ≠ "")
    (hws : ChatbotController.jsTrim s = "") :
    ChatbotController.handleChatMessage (some s) outcome =
      { status := 400, body := .err "Message is required" } := by
  show (if s = "" ∨ ChatbotController.jsTrim s = "" then _ else _) = _
  rw [if_pos (Or.inr hws)]

/-- Witness for C10 on the three-space message. -/
theorem whitespace_message_rejected_witness :
    ChatbotController.handleChatMessage (some "   ")
        (.ok ⟨"a reply", "other", none, none⟩) =
      { status := 400, body := .err "Message is required" } :=
  whitespace_message_rejected "   " (.ok ⟨"a reply", "other", none, none⟩)
    (by decide) (by decide)

/-- C1 (amended): the booking API's slot computation and the CURRENT chat
service's slot computation agree for every day-of-week and booking set — the
chat service returns exactly the display labels of the API's available
slots, in the same order, including the empty list on Sunday.  The claim as
stated fails for the legacy chat implementation (see the counterexample
theorem), which uses different per-day hour ranges. -/
theorem chat_current_matches_api_slots (day : Option Nat) (bs : List Booking) :
    ChatbotService.getAvailableTimeSlots day (.ok bs) =
      .ok ((AppointmentController.slotsOf
        (AppointmentController.getAvailableTimeSlots (some "2025-01-01") day
          (.ok bs))).map Slot.display) := by
  by_cases h0 : day = some 0
  · simp [ChatbotService.getAvailableTimeSlots,
      AppointmentController.getAvailableTimeSlots, AppointmentController.slotsOf,
      h0]
  · simp [ChatbotService.getAvailableTimeSlots,
      AppointmentController.getAvailableTimeSlots, AppointmentController.slotsOf,
      h0]

/-- C1 counterexample: on Saturday 2025-11-15 with no bookings the API
offers the eleven hours 08:00..18:00 while the legacy chat implementation
offers 09:00..17:00 — the two consumers do not produce the same set of open
hourly slots. -/
theorem chat_legacy_diverges_from_api :
    (AppointmentController.slotsOf
        (AppointmentController.getAvailableTimeSlots (some "2025-11-15")
          (some 6) (.ok []))).map Slot.time =
      ["08:00", "09:00", "10:00", "11:00", "12:00", "13:00", "14:00", "15:00",
       "16:00", "17:00", "18:00"]
    ∧ ChatbotServiceLegacy.getAvailableTimeSlots (.ok []) =
      .ok ["09:00", "10:00", "11:00", "12:00", "13:00", "14:00", "15:00",
           "16:00", "17:00"]
    ∧ (["08:00", "09:00", "10:00", "11:00", "12:00", "13:00", "14:00", "15:00",
        "16:00", "17:00", "18:00"] : List String) ≠
      ["09:00", "10:00", "11:00", "12:00", "13:00", "14:00", "15:00", "16:00",
       "17:00"] :=
  ⟨rfl, rfl, by decide⟩

lemma api_open_eval (s : String) (day : Option Nat) (bs : List Booking)
    (hs : s ≠ "") (hday : day ≠ some 0) :
    AppointmentController.getAvailableTimeSlots (some s) day (.ok bs) =
      { status := 200,
        body := .ok s (AppointmentController.getDayName day)
          (formatHourDisplay (businessStart day) ++ " - " ++
            formatHourDisplay (businessEnd day))
          ((makeSlots (businessStart day) (businessEnd day)).filter
            fun slot => !((bookedHoursOf bs).contains slot.hour))
          (makeSlots (businessStart day) (businessEnd day)).length
          (bookedHoursOf bs).length } := by
  simp only [AppointmentController.getAvailableTimeSlots]
  rw [if_neg hs, if_neg hday]

lemma chat_open_eval (day : Option Nat) (bs : List Booking)
    (hday : day ≠ some 0) :
    ChatbotService.getAvailableTimeSlots day (.ok bs) =
      .ok (((makeSlots (businessStart day) (businessEnd day)).filter
        fun slot => !((bookedHoursOf bs).contains slot.hour)).map
          fun slot => slot.display) := by
  simp only [ChatbotService.getAvailableTimeSlots]
  rw [if_neg hday]

lemma filter_slots_congr_of_mem {b : Booking} {bs : List Booking}
    (hocc : occupiesSlot b.status = true) (hmem : b.hour ∈ bookedHoursOf bs)
    (sh eh : Nat) :
    ((makeSlots sh eh).filter
        fun slot => !((bookedHoursOf (b :: bs)).contains slot.hour)) =
      ((makeSlots sh eh).filter
        fun slot => !((bookedHoursOf bs).contains slot.hour)) := by
  apply List.filter_congr
  intro s _
  have hcons : bookedHoursOf (b :: bs) = b.hour :: bookedHoursOf bs := by
    simp [bookedHoursOf, List.filter_cons, hocc]
  rw [hcons, contains_cons_of_mem hmem]

/-- C2 (amended): on an open day the handler's `bookedSlots` field equals
the TOTAL number of bookings whose status is in {scheduled, confirmed,
in_progress} — duplicates at the same hour are counted separately and hours
outside the business-hour interval are included (the claim's distinct-hours,
in-range count is what fails; see the counterexample theorem).  The claim's
final conjunct survives: a further booking at an already-occupied hour
leaves the available-slot list unchanged, so duplicates reduce the
available-slot count by at most 1. -/
theorem bookedSlots_counts_every_qualifying_booking (day : Option Nat)
    (bs : List Booking) (b : Booking) (hday : day ≠ some 0) :
    AppointmentController.bookedCountOf
        (AppointmentController.getAvailableTimeSlots (some "2025-01-01") day
          (.ok bs)) =
      (bs.filter fun x => occupiesSlot x.status).length
    ∧ (occupiesSlot b.status = true → b.hour ∈ bookedHoursOf bs →
        AppointmentController.slotsOf
            (AppointmentController.getAvailableTimeSlots (some "2025-01-01")
              day (.ok (b :: bs))) =
          AppointmentController.slotsOf
            (AppointmentController.getAvailableTimeSlots (some "2025-01-01")
              day (.ok bs))) := by
  constructor
  · rw [api_open_eval "2025-01-01" day bs (by decide) hday]
    simp [AppointmentController.bookedCountOf, bookedHoursOf]
  · intro hocc hmem
    rw [api_open_eval "2025-01-01" day (b :: bs) (by decide) hday,
      api_open_eval "2025-01-01" day bs (by decide) hday]
    simp only [AppointmentController.slotsOf]
    exact filter_slots_congr_of_mem hocc hmem _ _

/-- Witness for C2 (amended) on a Wednesday with a confirmed booking at hour
10 and a duplicate at the same hour. -/
theorem bookedSlots_counts_every_qualifying_booking_witness :
    AppointmentController.bookedCountOf
        (AppointmentController.getAvailableTimeSlots (some "2025-01-01")
          (some 3) (.ok [⟨10, 0, .confirmed⟩])) =
      ([⟨10, 0, .confirmed⟩].filter
        fun x : Booking => occupiesSlot x.status).length
    ∧ (occupiesSlot (⟨10, 30, .confirmed⟩ : Booking).status = true →
        (⟨10, 30, .confirmed⟩ : Booking).hour ∈
          bookedHoursOf [⟨10, 0, .confirmed⟩] →
        AppointmentController.slotsOf
            (AppointmentController.getAvailableTimeSlots (some "2025-01-01")
              (some 3) (.ok [⟨10, 30, .confirmed⟩, ⟨10, 0, .confirmed⟩])) =
          AppointmentController.slotsOf
            (AppointmentController.getAvailableTimeSlots (some "2025-01-01")
              (some 3) (.ok [⟨10, 0, .confirmed⟩]))) :=
  bookedSlots_counts_every_qualifying_booking (some 3) [⟨10, 0, .confirmed⟩]
    ⟨10, 30, .confirmed⟩ (by decide)

/-- C2 counterexample: two confirmed bookings at hour 10 on a Wednesday make
the handler report `bookedSlots = 2`, while the claim's distinct-in-range
count is 1. -/
theorem bookedSlots_double_counts_duplicates :
    AppointmentController.bookedCountOf
        (AppointmentController.getAvailableTimeSlots (some "2025-11-12")
          (some 3) (.ok [⟨10, 0, .confirmed⟩, ⟨10, 0, .confirmed⟩])) = 2
    ∧ specBookedSlotCount 9 18 [⟨10, 0, .confirmed⟩, ⟨10, 0, .confirmed⟩] = 1
    ∧ (2 : Nat) ≠ 1 :=
  ⟨rfl, by decide, by decide⟩

/-- C3 (amended): the handler never validates the date string.  For an
unparseable date (`new Date` gives `NaN`, so `getDay()` matches neither 0
nor 6) the handler falls into the weekday branch: with a successful booking
fetch it answers 200 with a guessed Monday-Friday schedule (hours 9..17
minus booked hours), with a failing fetch it answers 500 — in no case does
it answer 400 or signal any InvalidDateError. -/
theorem invalid_date_not_rejected (s : String) (bs : List Booking)
    (hs : s ≠ "") :
    (AppointmentController.getAvailableTimeSlots (some s) none
        (.ok bs)).status = 200
    ∧ AppointmentController.slotsOf
        (AppointmentController.getAvailableTimeSlots (some s) none (.ok bs)) =
      ((makeSlots 9 18).filter
        fun slot => !((bookedHoursOf bs).contains slot.hour))
    ∧ AppointmentController.getAvailableTimeSlots (some s) none (.error ()) =
      { status := 500, body := .err "Failed to fetch available time slots" }
    ∧ ∀ fetch, (AppointmentController.getAvailableTimeSlots (some s) none
        fetch).status ≠ 400 := by
  have hday : (none : Option Nat) ≠ some 0 := by decide
  have heval := api_open_eval s none bs hs hday
  refine ⟨?_, ?_, ?_, ?_⟩
  · rw [heval]
  · rw [heval]
    simp [AppointmentController.slotsOf, businessStart, businessEnd]
  · simp only [AppointmentController.getAvailableTimeSlots]
    rw [if_neg hs, if_neg hday]
  · intro fetch
    match fetch with
    | .ok l =>
      rw [api_open_eval s none l hs hday]
      simp
    | .error e =>
      simp only [AppointmentController.getAvailableTimeSlots]
      rw [if_neg hs, if_neg hday]
      simp

/-- Witness for C3 (amended) at the unparseable date string "garbage". -/
theorem invalid_date_not_rejected_witness :
    (AppointmentController.getAvailableTimeSlots (some "garbage") none
        (.ok [])).status = 200
    ∧ AppointmentController.slotsOf
        (AppointmentController.getAvailableTimeSlots (some "garbage") none
          (.ok [])) =
      ((makeSlots 9 18).filter
        fun slot => !((bookedHoursOf []).contains slot.hour))
    ∧ AppointmentController.getAvailableTimeSlots (some "garbage") none
        (.error ()) =
      { status := 500, body := .err "Failed to fetch available time slots" }
    ∧ ∀ fetch, (AppointmentController.getAvailableTimeSlots (some "garbage")
        none fetch).status ≠ 400 :=
  invalid_date_not_rejected "garbage" [] (by decide)

/-- C3 counterexample: for the unparseable date "garbage" with an empty
booking fetch the handler produces a full 200 availability result with a
guessed weekday schedule (and a failing fetch yields 500) — never the 400
InvalidDateError the claim requires. -/
theorem invalid_date_yields_guessed_schedule :
    AppointmentController.getAvailableTimeSlots (some "garbage") none
        (.ok []) =
      { status := 200,
        body := .ok "garbage" "undefined" "9:00 AM - 6:00 PM"
          (makeSlots 9 18) 9 0 }
    ∧ (AppointmentController.getAvailableTimeSlots (some "garbage") none
        (.ok [])).status ≠ 400
    ∧ (AppointmentController.getAvailableTimeSlots (some "garbage") none
        (.error ())).status = 500 :=
  ⟨rfl, by decide, rfl⟩

lemma business_add_sub (day : Option Nat) :
    businessStart day + (businessEnd day - businessStart day) =
      businessEnd day := by
  by_cases h6 : day = some 6 <;> simp [businessStart, businessEnd, h6]

/-- C4 (amended): in the booking API (and, by the same derivation, the
current chat service) a business-hour slot `h` is open exactly when no
booking at hour `h` has a status in {scheduled, confirmed, in_progress} —
in particular cancelled and completed bookings never remove a slot.  In the
LEGACY chat implementation, however, every non-cancelled booking (completed
included) whose "HH:MM" string matches a slot removes it (the claim's
"completed never removes" fails there; see the counterexample theorem). -/
theorem occupying_status_blocks_slot (day : Option Nat) (bs : List Booking)
    (h : Nat) (hday : day ≠ some 0) :
    (h ∈ (AppointmentController.slotsOf
        (AppointmentController.getAvailableTimeSlots (some "2025-01-01") day
          (.ok bs))).map Slot.hour ↔
      (businessStart day ≤ h ∧ h < businessEnd day ∧
        ∀ b ∈ bs, b.hour = h → occupiesSlot b.status = false))
    ∧ (∀ b ∈ bs, b.status ≠ BookingStatus.cancelled →
        (pad2 b.hour ++ ":" ++ pad2 b.minute) ∉
          ChatbotServiceLegacy.slotsOk
            (ChatbotServiceLegacy.getAvailableTimeSlots (.ok bs))) := by
  constructor
  · rw [api_open_eval "2025-01-01" day bs (by decide) hday]
    simp only [AppointmentController.slotsOf]
    rw [mem_filtered_slot_hours, business_add_sub]
    constructor
    · rintro ⟨hs1, hs2, hnb⟩
      refine ⟨hs1, hs2, ?_⟩
      intro b hb hh
      by_contra hoc
      rw [Bool.not_eq_false] at hoc
      exact hnb (mem_bookedHoursOf.mpr ⟨b, hb, hoc, hh⟩)
    · rintro ⟨hs1, hs2, hall⟩
      refine ⟨hs1, hs2, ?_⟩
      intro hmem
      obtain ⟨b, hb, hoc, hh⟩ := mem_bookedHoursOf.mp hmem
      rw [hall b hb hh] at hoc
      exact Bool.false_ne_true hoc
  · intro b hb hc hmem
    have hin := mem_legacy_bookedSlotsOf hb hc
    simp only [ChatbotServiceLegacy.getAvailableTimeSlots,
      ChatbotServiceLegacy.slotsOk, List.mem_filter] at hmem
    obtain ⟨-, hp⟩ := hmem
    rw [contains_eq_decide_mem] at hp
    simp only [Bool.not_eq_true', decide_eq_false_iff_not] at hp
    exact hp hin

/-- Witness for C4 (amended) on a Wednesday with one completed booking at
hour 14. -/
theorem occupying_status_blocks_slot_witness :
    (14 ∈ (AppointmentController.slotsOf
        (AppointmentController.getAvailableTimeSlots (some "2025-01-01")
          (some 3) (.ok [⟨14, 0, .completed⟩]))).map Slot.hour ↔
      (businessStart (some 3) ≤ 14 ∧ 14 < businessEnd (some 3) ∧
        ∀ b ∈ [(⟨14, 0, .completed⟩ : Booking)], b.hour = 14 →
          occupiesSlot b.status = false))
    ∧ (∀ b ∈ [(⟨14, 0, .completed⟩ : Booking)],
        b.status ≠ BookingStatus.cancelled →
        (pad2 b.hour ++ ":" ++ pad2 b.minute) ∉
          ChatbotServiceLegacy.slotsOk
            (ChatbotServiceLegacy.getAvailableTimeSlots
              (.ok [⟨14, 0, .completed⟩]))) :=
  occupying_status_blocks_slot (some 3) [⟨14, 0, .completed⟩] 14 (by decide)

/-- C4 counterexample: a completed booking at hour 14 leaves the 2:00 PM
slot available in the API handler but removes the "14:00" slot in the legacy
chat implementation — so "a booking with status completed never removes the
slot" is false for that consumer. -/
theorem completed_booking_blocks_slot_in_legacy :
    ChatbotServiceLegacy.getAvailableTimeSlots (.ok [⟨14, 0, .completed⟩]) =
      .ok ["09:00", "10:00", "11:00", "12:00", "13:00", "15:00", "16:00",
           "17:00"]
    ∧ "14:00" ∉ ChatbotServiceLegacy.slotsOk
        (ChatbotServiceLegacy.getAvailableTimeSlots
          (.ok [⟨14, 0, .completed⟩]))
    ∧ "2:00 PM" ∈ (AppointmentController.slotsOf
        (AppointmentController.getAvailableTimeSlots (some "2025-11-12")
          (some 3) (.ok [⟨14, 0, .completed⟩]))).map Slot.display :=
  ⟨rfl, by decide, by decide⟩

/-- C5 (amended): in the booking API and the current chat service only
`getHours()` of a booking is compared to slots, so clearing every booking's
minutes never changes the result — minutes are ignored and a 09:30 booking
blocks hour 9 exactly as a 09:00 one.  In the LEGACY chat implementation
the comparison is on exact "HH:MM" strings, so a 09:30 confirmed booking
blocks nothing (the claim's "minutes never cause a blocking booking to be
missed" fails there; see the counterexample theorem). -/
theorem minutes_ignored_in_hour_comparison (day : Option Nat)
    (bs : List Booking) :
    AppointmentController.getAvailableTimeSlots (some "2025-01-01") day
        (.ok (bs.map zeroMinutes)) =
      AppointmentController.getAvailableTimeSlots (some "2025-01-01") day
        (.ok bs)
    ∧ ChatbotService.getAvailableTimeSlots day (.ok (bs.map zeroMinutes)) =
      ChatbotService.getAvailableTimeSlots day (.ok bs)
    ∧ ChatbotServiceLegacy.getAvailableTimeSlots
        (.ok [⟨9, 30, .confirmed⟩]) =
      .ok ChatbotServiceLegacy.businessHours := by
  refine ⟨?_, ?_, rfl⟩
  · by_cases hday : day = some 0
    · simp [AppointmentController.getAvailableTimeSlots, hday]
    · rw [api_open_eval _ _ _ (by decide) hday,
        api_open_eval _ _ _ (by decide) hday, bookedHoursOf_zeroMinutes]
  · by_cases hday : day = some 0
    · simp [ChatbotService.getAvailableTimeSlots, hday]
    · rw [chat_open_eval _ _ hday, chat_open_eval _ _ hday,
        bookedHoursOf_zeroMinutes]

/-- C5 counterexample: a confirmed booking at 09:30 produces the booked
string "09:30", which matches no "HH:00" slot, so the legacy chat
implementation still offers 09:00 — the blocking booking is missed — while
the API handler blocks hour 9 for the same booking. -/
theorem legacy_misses_half_hour_booking :
    ChatbotServiceLegacy.bookedSlotsOf [⟨9, 30, .confirmed⟩] = ["09:30"]
    ∧ "09:00" ∈ ChatbotServiceLegacy.slotsOk
        (ChatbotServiceLegacy.getAvailableTimeSlots
          (.ok [⟨9, 30, .confirmed⟩]))
    ∧ 9 ∉ (AppointmentController.slotsOf
        (AppointmentController.getAvailableTimeSlots (some "2025-11-12")
          (some 3) (.ok [⟨9, 30, .confirmed⟩]))).map Slot.hour :=
  ⟨rfl, by decide, by decide⟩

/-- C6 (amended): for a Sunday day-of-week the API handler answers 200 with
`{availableSlots: [], message: "Service station is closed on Sundays"}` and
the current chat service returns the empty slot list, both regardless of the
booking fetch (which is never consulted).  The LEGACY chat implementation
has no Sunday check at all: it offers its fixed 09:00..17:00 slots on every
day (the claim's "this happens in both consumers" fails there; see the
counterexample theorem). -/
theorem sunday_closed_in_api_and_current_chat (s : String)
    (fetch : Except Unit (List Booking)) (hs : s ≠ "") :
    AppointmentController.getAvailableTimeSlots (some s) (some 0) fetch =
      { status := 200,
        body := .closed [] "Service station is closed on Sundays" }
    ∧ ChatbotService.getAvailableTimeSlots (some 0) fetch = .ok []
    ∧ ChatbotServiceLegacy.getAvailableTimeSlots (.ok []) =
      .ok ChatbotServiceLegacy.businessHours := by
  refine ⟨?_, rfl, rfl⟩
  simp only [AppointmentController.getAvailableTimeSlots]
  rw [if_neg hs]
  simp

/-- Witness for C6 (amended) on Sunday 2025-11-09 with a confirmed booking
at hour 10. -/
theorem sunday_closed_in_api_and_current_chat_witness :
    AppointmentController.getAvailableTimeSlots (some "2025-11-09") (some 0)
        (.ok [⟨10, 0, .confirmed⟩]) =
      { status := 200,
        body := .closed [] "Service station is closed on Sundays" }
    ∧ ChatbotService.getAvailableTimeSlots (some 0)
        (.ok [⟨10, 0, .confirmed⟩]) = .ok []
    ∧ ChatbotServiceLegacy.getAvailableTimeSlots (.ok []) =
      .ok ChatbotServiceLegacy.businessHours :=
  sunday_closed_in_api_and_current_chat "2025-11-09"
    (.ok [⟨10, 0, .confirmed⟩]) (by decide)

/-- C6 counterexample: on the Sunday 2025-11-09 the API handler returns the
closed outcome, but the legacy chat implementation (which never looks at the
day of week) returns nine open slots even with no bookings — the closed
outcome does not happen in both consumers. -/
theorem legacy_chat_open_on_sunday :
    AppointmentController.getAvailableTimeSlots (some "2025-11-09") (some 0)
        (.ok [⟨10, 0, .confirmed⟩]) =
      { status := 200,
        body := .closed [] "Service station is closed on Sundays" }
    ∧ ChatbotServiceLegacy.getAvailableTimeSlots (.ok []) =
      .ok ["09:00", "10:00", "11:00", "12:00", "13:00", "14:00", "15:00",
           "16:00", "17:00"]
    ∧ ChatbotServiceLegacy.slotsOk
        (ChatbotServiceLegacy.getAvailableTimeSlots (.ok [])) ≠ [] :=
  ⟨rfl, rfl, by decide⟩

/-- C8 (amended): the extraction falls back to `{intent: "other", date:
null, friendlyDate: null}` exactly when the JSON envelope cannot be found or
`JSON.parse` throws, and the fallback routes to a generic reply (never an
error and never the slot engine).  A successfully parsed payload is
returned completely unvalidated — in particular its `date` field is never
checked against the calendar (the claim's invalid-date fallback fails; see
the counterexample theorem). -/
theorem oracle_fallback_only_on_envelope_failure
    (p : ChatbotService.ParsedIntent) :
    ChatbotService.extractDateAndIntent .noEnvelope =
      ChatbotService.fallbackIntent
    ∧ ChatbotService.extractDateAndIntent .badJson =
      ChatbotService.fallbackIntent
    ∧ ChatbotService.extractDateAndIntent (.okJson p) = p
    ∧ ChatbotService.processChatRoute ChatbotService.fallbackIntent =
      .general "other" :=
  ⟨rfl, rfl, rfl, rfl⟩

/-- C8 counterexample: an oracle output carrying intent "appointment_query"
and the date string "9999-99-99" — which parses as no calendar date — is
returned as-is by the extraction (not replaced by the fallback) and is then
routed straight into the slot lookup by `processChatMessage`. -/
theorem invalid_oracle_date_not_validated :
    ChatbotService.extractDateAndIntent
        (.okJson ⟨"appointment_query", some "9999-99-99", none⟩) =
      ⟨"appointment_query", some "9999-99-99", none⟩
    ∧ ChatbotService.extractDateAndIntent
        (.okJson ⟨"appointment_query", some "9999-99-99", none⟩) ≠
      ChatbotService.fallbackIntent
    ∧ ChatbotService.processChatRoute
        ⟨"appointment_query", some "9999-99-99", none⟩ =
      .slotQuery "9999-99-99" :=
  ⟨rfl, by decide, rfl⟩
